import Mathlib

/-!
Verification of the `conduit` repository fragment: the `GrafanaLink` React
component (src/web/app/js/components/GrafanaLink.jsx) and the smoke-test
Kubernetes manifest (src/unnamed/part_000).

The JavaScript is embedded shallowly: `String.prototype.split` with a
one-character separator is modelled by `splitSep` over `List Char`
(JavaScript splits on every occurrence of the separator, and splitting the
empty string yields `[""]`); array indexing `a[i]`, which yields `undefined`
out of bounds, is modelled by `List.get?`; interpolation of a
possibly-undefined value into a template literal, which prints the text
`undefined`, is modelled by `jsTemplate`.
-/

/-- JavaScript `s.split(sep)` for a one-character separator `sep`, over the
character list of `s`: splits at every occurrence of `sep`; the empty input
yields `[[]]`, and adjacent separators yield empty segments. -/
def splitSep (sep : Char) : List Char → List (List Char)
  | [] => [[]]
  | c :: cs =>
    let r := splitSep sep cs
    if c = sep then [] :: r
    else (c :: r.headD []) :: r.tail

/-- JavaScript template-literal interpolation of a value that is either a
string or `undefined`: `undefined` prints as the literal text `undefined`. -/
def jsTemplate : Option (List Char) → String
  | some cs => String.mk cs
  | none => "undefined"

/-- The props record received by `GrafanaLink`: `name` (the composite
identifier), `resource` (the resource-type label) and `conduitLink` (the
link-rendering capability supplied by the caller, of arbitrary type `α`). -/
structure GrafanaLinkProps (α : Type) where
  name : String
  resource : String
  conduitLink : α

/-- The element returned by `GrafanaLink.render`: the invoked capability
(`component`), the props passed to it (`to`, `deployment`, `targetBlank`)
and its children (the displayed identifier text, the `&nbsp;&nbsp;` spacer
and the icon class of the external-link glyph). -/
structure ConduitLinkElement (α : Type) where
  component : α
  «to» : String
  deployment : String
  targetBlank : Bool
  childText : String
  childSpacer : String
  childGlyph : String

/-- `GrafanaLink.render` from GrafanaLink.jsx: splits `this.props.name` on
`"/"`, takes entries 0 and 1 as namespace and name, and returns a
`this.props.conduitLink` element with the interpolated dashboard path,
`deployment={"grafana"}`, `targetBlank={true}`, and the unsplit identifier
as the displayed child text. -/
def GrafanaLink.render {α : Type} (props : GrafanaLinkProps α) : ConduitLinkElement α :=
  let ownerInfo := splitSep '/' props.name.data
  let «namespace» := ownerInfo.get? 0
  let name := ownerInfo.get? 1
  { component := props.conduitLink
    «to» := "/dashboard/db/conduit-" ++ props.resource ++ "?var-namespace="
        ++ jsTemplate «namespace» ++ "&var-" ++ props.resource ++ "=" ++ jsTemplate name
    deployment := "grafana"
    targetBlank := true
    childText := props.name
    childSpacer := "\u00A0\u00A0"
    childGlyph := "fa fa-external-link" }

/-- A container entry of a Deployment's pod template in the smoke-test
manifest: its `name`, `image`, `args` list and declared container ports. -/
structure ContainerSpec where
  name : String
  image : String
  args : List String
  containerPorts : List Nat
deriving DecidableEq

/-- A `kind: Deployment` document of the smoke-test manifest: metadata name,
replica count, the `app` label used in `selector.matchLabels` and in the pod
template's labels, and the containers of the pod template. -/
structure DeploymentSpec where
  name : String
  replicas : Nat
  matchLabelsApp : String
  templateLabelsApp : String
  containers : List ContainerSpec
deriving DecidableEq

/-- A port entry of a `kind: Service` document: `name`, `port`,
`targetPort`. -/
structure ServicePort where
  name : String
  port : Nat
  targetPort : Nat
deriving DecidableEq

/-- A `kind: Service` document of the smoke-test manifest: metadata name, the
`app` selector, the optional `type` field (absent means the default,
internally addressable ClusterIP), and the port entries. -/
structure ServiceSpec where
  name : String
  selectorApp : String
  type : Option String
  ports : List ServicePort
deriving DecidableEq

/-- One YAML document of the smoke-test manifest: a Deployment or a
Service. -/
inductive ManifestDoc where
  | deployment : DeploymentSpec → ManifestDoc
  | service : ServiceSpec → ManifestDoc
deriving DecidableEq

/-- The Deployment document, if this document is one. -/
def ManifestDoc.deployment? : ManifestDoc → Option DeploymentSpec
  | .deployment d => some d
  | .service _ => none

/-- The Service document, if this document is one. -/
def ManifestDoc.service? : ManifestDoc → Option ServiceSpec
  | .deployment _ => none
  | .service s => some s

/-- The `smoke-test-terminus` Deployment: the downstream responder. -/
def smokeTestTerminus : DeploymentSpec :=
  { name := "smoke-test-terminus"
    replicas := 1
    matchLabelsApp := "smoke-test-terminus"
    templateLabelsApp := "smoke-test-terminus"
    containers :=
      [{ name := "http-to-grpc"
         image := "buoyantio/bb:v0.0.1"
         args := ["terminus", "--grpc-server-port", "9090", "--response-text", "BANANA"]
         containerPorts := [9090] }] }

/-- The `smoke-test-terminus-svc` Service: internally addressable (no `type`
field, hence the default ClusterIP), exposing gRPC port 9090. -/
def smokeTestTerminusSvc : ServiceSpec :=
  { name := "smoke-test-terminus-svc"
    selectorApp := "smoke-test-terminus"
    type := none
    ports := [{ name := "grpc", port := 9090, targetPort := 9090 }] }

/-- The `smoke-test-gateway` Deployment: the upstream forwarder, whose
`--grpc-downstream-server` argument names the responder's service and
port. -/
def smokeTestGateway : DeploymentSpec :=
  { name := "smoke-test-gateway"
    replicas := 1
    matchLabelsApp := "smoke-test-gateway"
    templateLabelsApp := "smoke-test-gateway"
    containers :=
      [{ name := "http-to-grpc"
         image := "buoyantio/bb:v0.0.1"
         args := ["point-to-point-channel", "--grpc-downstream-server",
                  "smoke-test-terminus-svc:9090", "--h1-server-port", "8080"]
         containerPorts := [8080] }] }

/-- The `smoke-test-gateway-svc` Service: externally load-balanced
(`type: LoadBalancer`), exposing HTTP port 8080. -/
def smokeTestGatewaySvc : ServiceSpec :=
  { name := "smoke-test-gateway-svc"
    selectorApp := "smoke-test-gateway"
    type := some "LoadBalancer"
    ports := [{ name := "http", port := 8080, targetPort := 8080 }] }

/-- The four documents of src/unnamed/part_000, in file order. -/
def smokeTestManifest : List ManifestDoc :=
  [.deployment smokeTestTerminus, .service smokeTestTerminusSvc,
   .deployment smokeTestGateway, .service smokeTestGatewaySvc]

theorem strData_append (s t : String) : (s ++ t).data = s.data ++ t.data := rfl

theorem strData_mk (l : List Char) : (String.mk l).data = l := rfl

theorem strMk_data (s : String) : String.mk s.data = s := rfl

theorem splitSep_ne_nil (sep : Char) (l : List Char) : splitSep sep l ≠ [] := by
  cases l with
  | nil => simp [splitSep]
  | cons c cs => simp only [splitSep]; split <;> simp

theorem splitSep_not_mem (sep : Char) (l : List Char) (h : sep ∉ l) :
    splitSep sep l = [l] := by
  induction l with
  | nil => rfl
  | cons c cs ih =>
    simp only [List.mem_cons, not_or] at h
    obtain ⟨h1, h2⟩ := h
    simp [splitSep, ih h2, Ne.symm h1]

theorem splitSep_append_cons (sep : Char) (a t : List Char) (h : sep ∉ a) :
    splitSep sep (a ++ sep :: t) = a :: splitSep sep t := by
  induction a with
  | nil => simp [splitSep]
  | cons c a' ih =>
    simp only [List.mem_cons, not_or] at h
    obtain ⟨h1, h2⟩ := h
    simp [splitSep, ih h2, Ne.symm h1]

theorem splitSep_cons_takeWhile (sep : Char) (l : List Char) :
    ∃ t, splitSep sep l = l.takeWhile (fun c => c != sep) :: t := by
  induction l with
  | nil => exact ⟨[], rfl⟩
  | cons c cs ih =>
    obtain ⟨t, ht⟩ := ih
    by_cases hc : c = sep
    · exact ⟨splitSep sep cs, by simp [splitSep, List.takeWhile_cons, hc]⟩
    · exact ⟨t, by simp [splitSep, List.takeWhile_cons, hc, ht]⟩

theorem splitSep_two_le (sep : Char) (l : List Char) (h : sep ∈ l) :
    2 ≤ (splitSep sep l).length := by
  induction l with
  | nil => cases h
  | cons c cs ih =>
    have h1 : splitSep sep cs ≠ [] := splitSep_ne_nil sep cs
    have h2 : 1 ≤ (splitSep sep cs).length := List.length_pos.mpr h1
    by_cases hc : c = sep
    · simp only [splitSep, if_pos hc, List.length_cons]
      omega
    · have hcs : sep ∈ cs := by
        cases List.mem_cons.mp h with
        | inl hh => exact absurd hh.symm hc
        | inr hh => exact hh
      have h3 := ih hcs
      simp only [splitSep, if_neg hc, List.length_cons, List.length_tail]
      omega

theorem two_le_length_exists {α : Type} (l : List α) (h : 2 ≤ l.length) :
    ∃ x y t, l = x :: y :: t := by
  cases l with
  | nil => simp at h
  | cons x l' =>
    cases l' with
    | nil => simp at h
    | cons y t => exact ⟨x, y, t, rfl⟩

theorem render_to_eq {α : Type} (p : GrafanaLinkProps α) :
    (GrafanaLink.render p).«to» =
      "/dashboard/db/conduit-" ++ p.resource ++ "?var-namespace="
        ++ jsTemplate ((splitSep '/' p.name.data).get? 0) ++ "&var-" ++ p.resource ++ "="
        ++ jsTemplate ((splitSep '/' p.name.data).get? 1) := rfl

/-- C1: for resourceType `deployment` and identifier `default/api`, the
rendered link target is exactly
`/dashboard/db/conduit-deployment?var-namespace=default&var-deployment=api`. -/
theorem grafanaLink_c1_exact_path :
    (GrafanaLink.render ⟨"default/api", "deployment", ()⟩).«to»
      = "/dashboard/db/conduit-deployment?var-namespace=default&var-deployment=api" := by
  decide

/-- C2: for every well-formed identifier `ns ++ "/" ++ nm` (both parts
non-empty and separator-free) and every resourceType `r`, the rendered URL
contains `var-namespace=ns` and `var-r=nm` as substrings. -/
theorem grafanaLink_c2_wellformed_substrings (ns nm r : String)
    (h1 : ns ≠ "") (h2 : nm ≠ "") (h3 : '/' ∉ ns.data) (h4 : '/' ∉ nm.data) :
    (∃ pre suf, (GrafanaLink.render ⟨ns ++ "/" ++ nm, r, ()⟩).«to».data
        = pre ++ ("var-namespace=" ++ ns).data ++ suf)
  ∧ (∃ pre suf, (GrafanaLink.render ⟨ns ++ "/" ++ nm, r, ()⟩).«to».data
        = pre ++ ("var-" ++ r ++ "=" ++ nm).data ++ suf) := by
  have hslash : ("/" : String).data = ['/'] := rfl
  have hdata : (ns ++ "/" ++ nm).data = ns.data ++ '/' :: nm.data := by
    simp [strData_append, hslash]
  have hsplit : splitSep '/' (ns.data ++ '/' :: nm.data) = [ns.data, nm.data] := by
    rw [splitSep_append_cons '/' ns.data nm.data h3,
      splitSep_not_mem '/' nm.data h4]
  have hq : ("?var-namespace=" : String).data
      = ['?'] ++ ("var-namespace=" : String).data := rfl
  have hq0 : ("?" : String).data = ['?'] := rfl
  have hamp : ("&var-" : String).data = ['&'] ++ ("var-" : String).data := rfl
  have hamp0 : ("&" : String).data = ['&'] := rfl
  constructor
  · refine ⟨("/dashboard/db/conduit-" ++ r ++ "?").data,
      ("&var-" ++ r ++ "=" ++ nm).data, ?_⟩
    rw [render_to_eq]
    simp [hdata, hsplit, jsTemplate, strMk_data, strData_append, hq, hq0,
      List.append_assoc]
  · refine ⟨("/dashboard/db/conduit-" ++ r ++ "?var-namespace=" ++ ns ++ "&").data,
      ([] : List Char), ?_⟩
    rw [render_to_eq]
    simp [hdata, hsplit, jsTemplate, strMk_data, strData_append, hamp, hamp0,
      List.append_assoc]

/-- Witness for C2 at `ns = "default"`, `nm = "api"`, `r = "deployment"`. -/
theorem grafanaLink_c2_witness :
    (("default" : String) ≠ "" ∧ ("api" : String) ≠ ""
      ∧ '/' ∉ ("default" : String).data ∧ '/' ∉ ("api" : String).data)
  ∧ ((∃ pre suf, (GrafanaLink.render ⟨"default" ++ "/" ++ "api", "deployment", ()⟩).«to».data
        = pre ++ ("var-namespace=" ++ "default").data ++ suf)
    ∧ (∃ pre suf, (GrafanaLink.render ⟨"default" ++ "/" ++ "api", "deployment", ()⟩).«to».data
        = pre ++ ("var-" ++ "deployment" ++ "=" ++ "api").data ++ suf)) :=
  ⟨⟨by decide, by decide, by decide, by decide⟩,
    grafanaLink_c2_wellformed_substrings "default" "api" "deployment"
      (by decide) (by decide) (by decide) (by decide)⟩

/-- Counterexample to C3: for the identifier `a/b/c` (more than one
separator) the name embedded in the URL is `b`, not everything after the
first separator (`b/c`), so the claim fails as stated. -/
theorem grafanaLink_c3_counterexample :
    (GrafanaLink.render ⟨"a/b/c", "deployment", ()⟩).«to»
        = "/dashboard/db/conduit-deployment?var-namespace=a&var-deployment=b"
    ∧ (GrafanaLink.render ⟨"a/b/c", "deployment", ()⟩).«to»
        ≠ "/dashboard/db/conduit-deployment?var-namespace=a&var-deployment=b/c" := by
  decide

/-- C3 (amended): for every identifier containing at least one separator,
the namespace embedded in the URL is everything before the first separator
and the name is the segment after the first separator up to the next
separator or the end of the string (not everything after the first
separator). -/
theorem grafanaLink_c3_amended (ns rest : List Char) (r : String) (h : '/' ∉ ns) :
    (GrafanaLink.render ⟨String.mk (ns ++ '/' :: rest), r, ()⟩).«to»
      = "/dashboard/db/conduit-" ++ r ++ "?var-namespace=" ++ String.mk ns
        ++ "&var-" ++ r ++ "=" ++ String.mk (rest.takeWhile (fun c => c != '/')) := by
  obtain ⟨t, ht⟩ := splitSep_cons_takeWhile '/' rest
  have hsplit : splitSep '/' (ns ++ '/' :: rest)
      = ns :: rest.takeWhile (fun c => c != '/') :: t := by
    rw [splitSep_append_cons '/' ns rest h, ht]
  rw [render_to_eq]
  simp [strData_mk, hsplit, jsTemplate]

/-- Witness for C3 (amended) at `ns = "ns"`, `rest = "a/b"`,
`r = "deployment"`. -/
theorem grafanaLink_c3_amended_witness :
    '/' ∉ (['n', 's'] : List Char)
  ∧ (GrafanaLink.render ⟨String.mk (['n', 's'] ++ '/' :: ['a', '/', 'b']), "deployment", ()⟩).«to»
      = "/dashboard/db/conduit-" ++ "deployment" ++ "?var-namespace=" ++ String.mk ['n', 's']
        ++ "&var-" ++ "deployment" ++ "="
        ++ String.mk ((['a', '/', 'b'] : List Char).takeWhile (fun c => c != '/')) :=
  ⟨by decide, grafanaLink_c3_amended ['n', 's'] ['a', '/', 'b'] "deployment" (by decide)⟩

/-- C4: for every input record, the capability invoked is exactly the
supplied one, the `deployment` label passed to it is the constant
`grafana`, and `targetBlank` is the constant `true`. -/
theorem grafanaLink_c4_fixed_capability_props {α : Type} (p : GrafanaLinkProps α) :
    (GrafanaLink.render p).component = p.conduitLink
  ∧ (GrafanaLink.render p).deployment = "grafana"
  ∧ (GrafanaLink.render p).targetBlank = true :=
  ⟨rfl, rfl, rfl⟩

/-- C5: for every input record, the displayed child text is exactly the
original unsplit identifier, followed by the external-link glyph. -/
theorem grafanaLink_c5_display_text {α : Type} (p : GrafanaLinkProps α) :
    (GrafanaLink.render p).childText = p.name
  ∧ (GrafanaLink.render p).childGlyph = "fa fa-external-link" :=
  ⟨rfl, rfl⟩

/-- C6: if the identifier contains at least one separator, both entries 0
and 1 of the split result are defined (`some`), and the rendered URL is
built from those defined values, never from the out-of-bounds `undefined`
branch. -/
theorem grafanaLink_c6_defined_split (s r : String) (h : '/' ∈ s.data) :
    ∃ ns nm, (splitSep '/' s.data).get? 0 = some ns
      ∧ (splitSep '/' s.data).get? 1 = some nm
      ∧ (GrafanaLink.render ⟨s, r, ()⟩).«to»
          = "/dashboard/db/conduit-" ++ r ++ "?var-namespace=" ++ String.mk ns
            ++ "&var-" ++ r ++ "=" ++ String.mk nm := by
  obtain ⟨x, y, t, hxyt⟩ := two_le_length_exists _ (splitSep_two_le '/' s.data h)
  refine ⟨x, y, ?_, ?_, ?_⟩
  · rw [hxyt]; rfl
  · rw [hxyt]; rfl
  · rw [render_to_eq]
    simp [hxyt, jsTemplate]

/-- Witness for C6 at identifier `default/api`, resource `deployment`. -/
theorem grafanaLink_c6_witness :
    '/' ∈ ("default/api" : String).data
  ∧ ∃ ns nm, (splitSep '/' ("default/api" : String).data).get? 0 = some ns
      ∧ (splitSep '/' ("default/api" : String).data).get? 1 = some nm
      ∧ (GrafanaLink.render ⟨"default/api", "deployment", ()⟩).«to»
          = "/dashboard/db/conduit-" ++ "deployment" ++ "?var-namespace=" ++ String.mk ns
            ++ "&var-" ++ "deployment" ++ "=" ++ String.mk nm :=
  ⟨by decide, grafanaLink_c6_defined_split "default/api" "deployment" (by decide)⟩

/-- C7: rendering is deterministic: two input records with equal fields
produce equal output elements (the embedding is a pure function of the
props record, so no outside state is read or written). -/
theorem grafanaLink_c7_deterministic {α : Type} (p q : GrafanaLinkProps α)
    (h1 : p.name = q.name) (h2 : p.resource = q.resource)
    (h3 : p.conduitLink = q.conduitLink) :
    GrafanaLink.render p = GrafanaLink.render q := by
  cases p
  cases q
  cases h1
  cases h2
  cases h3
  rfl

/-- Witness for C7 at two equal concrete records. -/
theorem grafanaLink_c7_witness :
    GrafanaLink.render ⟨"default/api", "deployment", ()⟩
      = GrafanaLink.render ⟨"default/api", "deployment", ()⟩ :=
  grafanaLink_c7_deterministic _ _ rfl rfl rfl

/-- C9: for an identifier with no separator, rendering still totally
succeeds, the namespace embedded in the URL is the whole unsplit
identifier, and the name query-parameter value is the literal text
`undefined`. -/
theorem grafanaLink_c9_no_separator (s r : String) (h : '/' ∉ s.data) :
    (GrafanaLink.render ⟨s, r, ()⟩).«to»
      = "/dashboard/db/conduit-" ++ r ++ "?var-namespace=" ++ s
        ++ "&var-" ++ r ++ "=" ++ "undefined" := by
  have hsplit : splitSep '/' s.data = [s.data] := splitSep_not_mem '/' s.data h
  rw [render_to_eq]
  simp [hsplit, jsTemplate, strMk_data]

/-- Witness for C9 at identifier `defaultapi` (no separator), resource
`deployment`. -/
theorem grafanaLink_c9_witness :
    '/' ∉ ("defaultapi" : String).data
  ∧ (GrafanaLink.render ⟨"defaultapi", "deployment", ()⟩).«to»
      = "/dashboard/db/conduit-" ++ "deployment" ++ "?var-namespace=" ++ "defaultapi"
        ++ "&var-" ++ "deployment" ++ "=" ++ "undefined" :=
  ⟨by decide, grafanaLink_c9_no_separator "defaultapi" "deployment" (by decide)⟩

/-- C10: for an identifier with two or more separators, the URL-embedded
name is only the segment between the first and second separators (later
segments are discarded), while the displayed child text is still the full
identifier, so the two can disagree. -/
theorem grafanaLink_c10_extra_segments (a b c : List Char) (r : String)
    (ha : '/' ∉ a) (hb : '/' ∉ b) :
    (GrafanaLink.render ⟨String.mk (a ++ '/' :: (b ++ '/' :: c)), r, ()⟩).«to»
      = "/dashboard/db/conduit-" ++ r ++ "?var-namespace=" ++ String.mk a
        ++ "&var-" ++ r ++ "=" ++ String.mk b
    ∧ (GrafanaLink.render ⟨String.mk (a ++ '/' :: (b ++ '/' :: c)), r, ()⟩).childText
      = String.mk (a ++ '/' :: (b ++ '/' :: c)) := by
  have hsplit : splitSep '/' (a ++ '/' :: (b ++ '/' :: c))
      = a :: b :: splitSep '/' c := by
    rw [splitSep_append_cons '/' a _ ha, splitSep_append_cons '/' b c hb]
  constructor
  · rw [render_to_eq]
    simp [strData_mk, hsplit, jsTemplate]
  · rfl

/-- Witness for C10 at identifier `a/b/c`, resource `deployment`. -/
theorem grafanaLink_c10_witness :
    ('/' ∉ (['a'] : List Char) ∧ '/' ∉ (['b'] : List Char))
  ∧ ((GrafanaLink.render ⟨String.mk (['a'] ++ '/' :: (['b'] ++ '/' :: ['c'])), "deployment", ()⟩).«to»
      = "/dashboard/db/conduit-" ++ "deployment" ++ "?var-namespace=" ++ String.mk ['a']
        ++ "&var-" ++ "deployment" ++ "=" ++ String.mk ['b']
    ∧ (GrafanaLink.render ⟨String.mk (['a'] ++ '/' :: (['b'] ++ '/' :: ['c'])), "deployment", ()⟩).childText
      = String.mk (['a'] ++ '/' :: (['b'] ++ '/' :: ['c']))) :=
  ⟨⟨by decide, by decide⟩,
    grafanaLink_c10_extra_segments ['a'] ['b'] ['c'] "deployment" (by decide) (by decide)⟩

/-- C8: the manifest has exactly two Deployments and two Services; exactly
one Service is `type: LoadBalancer` (the gateway one) and exactly one has
no `type` field (the internally addressable terminus one); the gateway's
`--grpc-downstream-server` argument is exactly the terminus Service's name
and port `9090`, the port that Service exposes. -/
theorem smokeTestManifest_c8_shape :
    (smokeTestManifest.filterMap ManifestDoc.deployment?).length = 2
  ∧ (smokeTestManifest.filterMap ManifestDoc.service?).length = 2
  ∧ ((smokeTestManifest.filterMap ManifestDoc.service?).filter
        (fun s => s.type == some "LoadBalancer")).map ServiceSpec.name
      = ["smoke-test-gateway-svc"]
  ∧ ((smokeTestManifest.filterMap ManifestDoc.service?).filter
        (fun s => s.type == (none : Option String))).map ServiceSpec.name
      = ["smoke-test-terminus-svc"]
  ∧ smokeTestGateway.containers.map ContainerSpec.args
      = [["point-to-point-channel", "--grpc-downstream-server",
          smokeTestTerminusSvc.name ++ ":" ++ toString (9090 : Nat),
          "--h1-server-port", "8080"]]
  ∧ smokeTestTerminusSvc.ports.map ServicePort.port = [(9090 : Nat)] := by
  decide
